import Mathlib

/- Shallow embedding of the page-scroll video recording tool `record.cjs`
(the only component of this repository with original logic, per the spec).

Modelling conventions:
* JavaScript numbers used by the scroll animation (`duration`, `speed`,
  scroll offsets, sleep intervals) are embedded as rationals; `Math.round`
  and `Math.ceil` are embedded with JavaScript semantics (`Math.round`
  rounds half toward positive infinity).
* Strings are Lean `String`s; JavaScript `String.prototype.replace` with a
  plain-string pattern (replace first occurrence) and with a single-character
  global regex (replace every occurrence) are embedded as `jsReplace` and
  `replaceAllChar` on character lists.
* The effectful body of `recordVideo` is embedded as a function from the
  parsed options and an environment oracle (outcomes of the external
  capabilities: URL parsing, browser launch, the two navigations, the
  directory listing of the temp dir, and the two ffmpeg invocations) to a
  trace of side-effect events plus a result (normal return, thrown error,
  or explicit `process.exit`).  `console.log` narration lines that carry no
  decision are mostly omitted; error-reporting lines are kept.
* The two-stage palette ffmpeg pipeline inside `generateGif` is collapsed
  into a single fallible encode event; its success flag is the oracle's.
-/

namespace RecordCjs

/-- JavaScript `Math.round` on rationals: floor of x + 1/2 (half rounds up). -/
def jsRound (q : ℚ) : ℤ := ⌊q + 1/2⌋

/-- JavaScript `Math.ceil` on rationals. -/
def jsCeil (q : ℚ) : ℤ := ⌈q⌉

/-- Source constant: title bar + address bar height (record.cjs line 32). -/
def CHROME_HEIGHT : ℕ := 64

/-- Source constant: border width for sides and bottom (line 33). -/
def CHROME_BORDER : ℕ := 5

/-- Source constant: default viewport width (line 36). -/
def DEFAULT_WIDTH : ℤ := 900

/-- Source constant: default viewport height (line 37). -/
def DEFAULT_HEIGHT : ℤ := 900

/-- Source constant: default scroll duration in seconds (line 40). -/
def DEFAULT_DURATION : ℚ := 10

/-- Source constant: default scroll speed in pixels per second (line 43). -/
def DEFAULT_SCROLL_SPEED : ℚ := 300

/-- Source constant: GIF loop count, 0 = infinite (line 46). -/
def GIF_LOOP_COUNT : ℕ := 0

/-- Source constant: frames per second for the scroll animation (line 49). -/
def SCROLL_FPS : ℚ := 60

/-- One iteration of the scroll loop: the absolute position handed to
`window.scrollTo` and the duration of the `waitForTimeout` sleep that
follows it. -/
structure ScrollStep where
  scrollTo : ℚ
  sleepMs : ℚ
deriving DecidableEq

/-- The `for (let frame = 0; frame < totalFrames; frame++)` loop of
`scrollForDuration` (lines 320-325): `currentScrollY` is the mutable
accumulator, each iteration sets `newY = currentScrollY + pixelsPerFrame`,
scrolls there, sleeps, and updates the accumulator. -/
def scrollLoop (delta : ℤ) (ms : ℚ) : ℚ → ℕ → List ScrollStep
  | _, 0 => []
  | cur, n+1 =>
    { scrollTo := cur + (delta : ℚ), sleepMs := ms } ::
      scrollLoop delta ms (cur + (delta : ℚ)) n

/-- `scrollForDuration` (lines 311-326): pixelsPerFrame, msPerFrame and
totalFrames exactly as computed in the source; the loop runs
`totalFrames` times (a non-positive frame count runs zero times, as the
JavaScript `for` loop would). -/
def scrollForDuration (durationSeconds pixelsPerSecond initialScrollY : ℚ) :
    List ScrollStep :=
  let pixelsPerFrame : ℤ := max 1 (jsCeil (pixelsPerSecond / SCROLL_FPS))
  let msPerFrame : ℚ := 1000 / SCROLL_FPS
  let totalFrames : ℤ := jsRound (durationSeconds * SCROLL_FPS)
  scrollLoop pixelsPerFrame msPerFrame initialScrollY totalFrames.toNat

/-- JavaScript global single-character regex replace, as used by
`escapeHtml` (lines 283-288): every occurrence of the character `pat`
is replaced by the string `rep`. -/
def replaceAllChar : List Char → Char → List Char → List Char
  | [], _, _ => []
  | c :: t, pat, rep => (if c = pat then rep else [c]) ++ replaceAllChar t pat rep

/-- `escapeHtml` (lines 282-289): the five sequential global replaces of
the source, in source order (ampersand first). -/
def escapeHtml (text : String) : String :=
  String.mk
    (replaceAllChar
      (replaceAllChar
        (replaceAllChar
          (replaceAllChar
            (replaceAllChar text.data '&' "&amp;".data)
            '<' "&lt;".data)
          '>' "&gt;".data)
        '\x22' "&quot;".data)
      '\x27' "&#039;".data)

/-- Analysis helper (not from the source): the per-character effect the
five replaces of `escapeHtml` have on a single input character. -/
def escapeChar (c : Char) : List Char :=
  if c = '&' then ['&', 'a', 'm', 'p', ';']
  else if c = '<' then ['&', 'l', 't', ';']
  else if c = '>' then ['&', 'g', 't', ';']
  else if c = '\x22' then ['&', 'q', 'u', 'o', 't', ';']
  else if c = '\x27' then ['&', '#', '0', '3', '9', ';']
  else [c]

/-- Analysis helper: `escapeChar` mapped over a character list. -/
def escListSpec : List Char → List Char
  | [] => []
  | c :: t => escapeChar c ++ escListSpec t

/-- A character that must never appear raw in escaped text: one of
the significant markup characters other than the ampersand (which is
allowed to appear as the head of an entity). -/
def rawSpecial (c : Char) : Bool :=
  c = '<' || c = '>' || c = '\x22' || c = '\x27'

/-- Every ampersand in the list is the head of one of the five HTML
entities that `escapeHtml` emits. -/
def ampOk : List Char → Bool
  | [] => true
  | c :: t =>
    if c = '&' then
      if "amp;".data.isPrefixOf t then ampOk (t.drop 4)
      else if "lt;".data.isPrefixOf t then ampOk (t.drop 3)
      else if "gt;".data.isPrefixOf t then ampOk (t.drop 3)
      else if "quot;".data.isPrefixOf t then ampOk (t.drop 5)
      else if "#039;".data.isPrefixOf t then ampOk (t.drop 5)
      else false
    else ampOk t
termination_by l => l.length
decreasing_by
  all_goals simp [List.length_drop]
  all_goals omega

/-- JavaScript `String.prototype.replace` with a plain-string pattern:
replaces the first occurrence only, returns the input unchanged when the
pattern does not occur. -/
def replaceFirst : List Char → List Char → List Char → List Char
  | [], _, _ => []
  | c :: rest, pat, rep =>
    if pat.isPrefixOf (c :: rest) then rep ++ (c :: rest).drop pat.length
    else c :: replaceFirst rest pat rep

/-- String-level wrapper for `replaceFirst`, the semantics of
`options.output.replace('.mp4', ...)` in the source (lines 503 and 510). -/
def jsReplace (s pat rep : String) : String :=
  String.mk (replaceFirst s.data pat.data rep.data)

/-- Whether `pat` occurs as a contiguous substring of `s`. -/
def hasSub : List Char → List Char → Bool
  | [], pat => pat.isEmpty
  | c :: rest, pat => pat.isPrefixOf (c :: rest) || hasSub rest pat

/-- JavaScript `String.prototype.endsWith`, used by the `.webm` filter
(line 489). -/
def jsEndsWith (s suffixStr : String) : Bool :=
  suffixStr.data.isSuffixOf s.data

/-- The (style rules, markup fragment) pair returned by
`getBrowserChromeOverlay`. -/
structure Overlay where
  css : String
  html : String
deriving DecidableEq

/-- The CSS template literal of `getBrowserChromeOverlay` (lines 108-252),
with the source's interpolations of `CHROME_HEIGHT` and `CHROME_BORDER`. -/
def overlayCss : String :=
  "
      #browser-chrome-overlay \x7b
        position: fixed;
        top: 0;
        left: 0;
        right: 0;
        height: " ++ toString CHROME_HEIGHT ++ "px;
        z-index: 2147483647;
        font-family: -apple-system, BlinkMacSystemFont, \x27SF Pro Text\x27, \x27Helvetica Neue\x27, sans-serif;
        background: linear-gradient(180deg, #e8e6e8 0%, #dcdadc 100%);
      \x7d

      #browser-chrome-overlay * \x7b
        box-sizing: border-box;
      \x7d

      #browser-chrome-overlay .title-bar \x7b
        display: flex;
        align-items: center;
        height: 28px;
        padding: 0 12px;
        position: relative;
      \x7d

      #browser-chrome-overlay .traffic-lights \x7b
        display: flex;
        gap: 8px;
        position: absolute;
        left: 12px;
        top: 50%;
        transform: translateY(-50%);
      \x7d

      #browser-chrome-overlay .traffic-light \x7b
        width: 12px;
        height: 12px;
        border-radius: 50%;
        box-shadow: inset 0 0 0 0.5px rgba(0,0,0,0.15);
      \x7d

      #browser-chrome-overlay .traffic-light.close \x7b
        background: #ff5f57;
      \x7d

      #browser-chrome-overlay .traffic-light.minimize \x7b
        background: #febc2e;
      \x7d

      #browser-chrome-overlay .traffic-light.maximize \x7b
        background: #28c840;
      \x7d

      #browser-chrome-overlay .title \x7b
        flex: 1;
        text-align: center;
        font-size: 13px;
        font-weight: 500;
        color: #4d4d4d;
        white-space: nowrap;
        overflow: hidden;
        text-overflow: ellipsis;
        padding: 0 80px;
        line-height: 28px;
      \x7d

      #browser-chrome-overlay .address-bar-container \x7b
        padding: 4px 8px 8px 8px;
      \x7d

      #browser-chrome-overlay .address-bar \x7b
        background: #ffffff;
        padding: 5px 12px;
        border-radius: 6px;
        border: 1px solid #c4c4c4;
        display: flex;
        align-items: center;
        gap: 6px;
        height: 28px;
      \x7d

      #browser-chrome-overlay .lock-icon \x7b
        width: 12px;
        height: 12px;
        display: flex;
        align-items: center;
        justify-content: center;
      \x7d

      #browser-chrome-overlay .lock-icon svg \x7b
        width: 10px;
        height: 10px;
        fill: #666;
      \x7d

      #browser-chrome-overlay .url-text \x7b
        font-size: 12px;
        color: #333333;
        white-space: nowrap;
        overflow: hidden;
        text-overflow: ellipsis;
        line-height: 1;
      \x7d

      /* Browser window frame - sides and bottom */
      #browser-frame-left,
      #browser-frame-right,
      #browser-frame-bottom \x7b
        position: fixed;
        background: #dcdadc;
        z-index: 2147483646;
      \x7d

      #browser-frame-left \x7b
        top: " ++ toString CHROME_HEIGHT ++ "px;
        left: 0;
        width: " ++ toString CHROME_BORDER ++ "px;
        bottom: 0;
      \x7d

      #browser-frame-right \x7b
        top: " ++ toString CHROME_HEIGHT ++ "px;
        right: 0;
        width: " ++ toString CHROME_BORDER ++ "px;
        bottom: 0;
      \x7d

      #browser-frame-bottom \x7b
        left: 0;
        right: 0;
        bottom: 0;
        height: " ++ toString CHROME_BORDER ++ "px;
      \x7d

      /* Push page content to make room for chrome frame */
      html \x7b
        margin-top: " ++ toString CHROME_HEIGHT ++ "px !important;
        margin-left: " ++ toString CHROME_BORDER ++ "px !important;
        margin-right: " ++ toString CHROME_BORDER ++ "px !important;
        margin-bottom: " ++ toString CHROME_BORDER ++ "px !important;
      \x7d

      body \x7b
        margin-top: 0 !important;
      \x7d
    "

/-- The markup template of `getBrowserChromeOverlay` (lines 253-261) up to
the point where the escaped title is interpolated. -/
def htmlPre : String :=
  "
      <div id=\"browser-chrome-overlay\">
        <div class=\"title-bar\">
          <div class=\"traffic-lights\">
            <div class=\"traffic-light close\"></div>
            <div class=\"traffic-light minimize\"></div>
            <div class=\"traffic-light maximize\"></div>
          </div>
          <div class=\"title\">"

/-- The markup template (lines 261-270) between the escaped title and the
escaped display URL. -/
def htmlMid : String :=
  "</div>
        </div>
        <div class=\"address-bar-container\">
          <div class=\"address-bar\">
            <span class=\"lock-icon\">
              <svg viewBox=\"0 0 12 12\" xmlns=\"http://www.w3.org/2000/svg\">
                <path d=\"M9.5 5H9V3.5C9 1.57 7.43 0 5.5 0S2 1.57 2 3.5V5h-.5C.67 5 0 5.67 0 6.5v4c0 .83.67 1.5 1.5 1.5h8c.83 0 1.5-.67 1.5-1.5v-4c0-.83-.67-1.5-1.5-1.5zM3.5 3.5C3.5 2.4 4.4 1.5 5.5 1.5S7.5 2.4 7.5 3.5V5h-4V3.5z\"/>
              </svg>
            </span>
            <span class=\"url-text\">"

/-- The markup template (lines 270-277) after the escaped display URL. -/
def htmlPost : String :=
  "</span>
          </div>
        </div>
      </div>
      <div id=\"browser-frame-left\"></div>
      <div id=\"browser-frame-right\"></div>
      <div id=\"browser-frame-bottom\"></div>
    "

/-- `getBrowserChromeOverlay` (lines 106-279): a pure value of the two
inputs; its body only assembles template literals, so the embedding has
no effect trace. The inputs enter the markup exclusively through
`escapeHtml`. -/
def getBrowserChromeOverlay (title displayUrl : String) : Overlay :=
  { css := overlayCss,
    html := htmlPre ++ escapeHtml title ++ htmlMid ++ escapeHtml displayUrl ++ htmlPost }

/-- The options bag built by `parseArgs` (lines 52-103). `url`, `output`
and `title` may be absent (`none` embeds JavaScript `null`/`undefined`);
numeric fields are rationals or integers. -/
structure Options where
  url : Option String
  output : Option String
  duration : ℚ
  speed : ℚ
  wait : ℤ
  trim : ℚ
  title : Option String
  noGif : Bool
  width : ℤ
  height : ℤ
deriving DecidableEq

/-- The defaults object at the top of `parseArgs` (lines 53-64). -/
def defaultOptions : Options :=
  { url := none, output := none, duration := DEFAULT_DURATION,
    speed := DEFAULT_SCROLL_SPEED, wait := 3000, trim := 3, title := none,
    noGif := false, width := DEFAULT_WIDTH, height := DEFAULT_HEIGHT }

/-- The argument loop of `parseArgs` (lines 66-100). `pf` and `pijs` are
the external `parseFloat` / `parseInt` capabilities, applied to the flag's
value (`none` embeds the `undefined` read past the end of the argument
list, which the source does not guard against). Unrecognized arguments
are skipped; a value-taking flag consumes the following argument even when
that argument looks like a flag, exactly as `args[++i]` does. -/
def parseArgsLoop (pf : Option String → ℚ) (pijs : Option String → ℤ) :
    List String → Options → Options
  | [], o => o
  | a :: rest, o =>
    if a = "--url" then
      match rest with
      | [] => { o with url := none }
      | v :: r2 => parseArgsLoop pf pijs r2 { o with url := some v }
    else if a = "--output" then
      match rest with
      | [] => { o with output := none }
      | v :: r2 => parseArgsLoop pf pijs r2 { o with output := some v }
    else if a = "--duration" then
      match rest with
      | [] => { o with duration := pf none }
      | v :: r2 => parseArgsLoop pf pijs r2 { o with duration := pf (some v) }
    else if a = "--speed" then
      match rest with
      | [] => { o with speed := pf none }
      | v :: r2 => parseArgsLoop pf pijs r2 { o with speed := pf (some v) }
    else if a = "--wait" then
      match rest with
      | [] => { o with wait := pijs none }
      | v :: r2 => parseArgsLoop pf pijs r2 { o with wait := pijs (some v) }
    else if a = "--trim" then
      match rest with
      | [] => { o with trim := pf none }
      | v :: r2 => parseArgsLoop pf pijs r2 { o with trim := pf (some v) }
    else if a = "--title" then
      match rest with
      | [] => { o with title := none }
      | v :: r2 => parseArgsLoop pf pijs r2 { o with title := some v }
    else if a = "--no-gif" then parseArgsLoop pf pijs rest { o with noGif := true }
    else if a = "--width" then
      match rest with
      | [] => { o with width := pijs none }
      | v :: r2 => parseArgsLoop pf pijs r2 { o with width := pijs (some v) }
    else if a = "--height" then
      match rest with
      | [] => { o with height := pijs none }
      | v :: r2 => parseArgsLoop pf pijs r2 { o with height := pijs (some v) }
    else parseArgsLoop pf pijs rest o

/-- `parseArgs` (lines 52-103): run the loop over the defaults. -/
def parseArgs (pf : Option String → ℚ) (pijs : Option String → ℤ)
    (args : List String) : Options :=
  parseArgsLoop pf pijs args defaultOptions

/-- JavaScript truthiness test for an optional string: `null`, `undefined`
and the empty string are falsy. -/
def jsFalsy : Option String → Bool
  | none => true
  | some s => s == ""

/-- The string carried by an optional value on code paths where the source
has already established it is truthy. -/
def jsStr (x : Option String) : String := x.getD ""

/-- One observable side effect of a run of `recordVideo`. Success flags on
`goto`, `launch` and the two encode events record whether the external
capability succeeded; an event with a `false` flag produced no artifact. -/
inductive Event where
  | mkdirOutput : Event
  | mkTempDir : String → Event
  | launch : Bool → Event
  | newContext : Bool → Event
  | goto : String → Bool → Bool → Event
  | sleep : ℚ → Event
  | inject : String → String → Event
  | scrollTo : ℚ → Event
  | closeContext : Bool → Event
  | encodeMp4 : String → String → ℚ → Bool → Event
  | copyFile : String → String → Event
  | encodeGif : String → String → Bool → Event
  | unlinkFile : String → Event
  | closeBrowser : Event
  | rmTempDir : String → Event
  | log : String → Event
  | errLog : String → Event
deriving DecidableEq

/-- Environment oracle: the outcomes of every external capability a run of
`recordVideo` consults, in the order the source consults them.
`urlParse` is the result of `new URL(options.url)` (hostname, pathname),
`none` when the constructor throws; `tempFiles` is the directory listing
of the temp dir after the recording context is closed. -/
structure Env where
  urlParse : Option (String × String)
  launchOk : Bool
  setupNavOk : Bool
  recordNavOk : Bool
  pageTitle : String
  initialScrollY : ℚ
  tempDirName : String
  tempFiles : List String
  outputDirExists : Bool
  mp4Ok : Bool
  gifOk : Bool

/-- How a run of `recordVideo` ends: an explicit `process.exit`, a thrown
error (which the top-level `.catch` turns into exit code 1), or a normal
return (process exits 0). -/
inductive RVResult where
  | exited : ℕ → RVResult
  | threw : String → RVResult
  | normal : RVResult
deriving DecidableEq

/-- Scroll steps rendered as trace events: each loop iteration is an
absolute `scrollTo` followed by a sleep. -/
def stepsToEvents : List ScrollStep → List Event
  | [] => []
  | st :: r => Event.scrollTo st.scrollTo :: Event.sleep st.sleepMs :: stepsToEvents r

/-- The displayed title (lines 436-439): the `--title` override when
truthy, otherwise the page's own title. -/
def pageTitleOf (o : Options) (env : Env) : String :=
  if jsFalsy o.title then env.pageTitle else jsStr o.title

/-- The setup pass (lines 410-450): non-recording context, navigation,
the configured settle wait (only when positive), overlay injection, a
fixed 300 ms render wait, context close. A navigation failure throws. -/
def setupPassEvents (o : Options) (env : Env) (displayUrl : String) :
    List Event × Option String :=
  let gotoEvs := [Event.newContext false, Event.goto (jsStr o.url) false env.setupNavOk]
  if env.setupNavOk then
    (gotoEvs
      ++ (if 0 < o.wait then [Event.sleep (o.wait : ℚ)] else [])
      ++ [Event.inject (pageTitleOf o env) displayUrl, Event.sleep 300,
          Event.closeContext false],
     none)
  else (gotoEvs, some "page.goto failed")

/-- The recording pass (lines 453-484): recording-enabled context, fresh
navigation, overlay injection, a fixed 2000 ms settle wait (the literal on
line 476 — not the configured `--wait`), the scroll loop, context close. -/
def recordPassEvents (o : Options) (env : Env) (displayUrl : String) :
    List Event × Option String :=
  let gotoEvs := [Event.newContext true, Event.goto (jsStr o.url) true env.recordNavOk]
  if env.recordNavOk then
    (gotoEvs
      ++ [Event.inject (pageTitleOf o env) displayUrl, Event.sleep 2000]
      ++ stepsToEvents (scrollForDuration o.duration o.speed env.initialScrollY)
      ++ [Event.closeContext true],
     none)
  else (gotoEvs, some "page.goto failed")

/-- `convertToMp4` (lines 330-345): one fallible ffmpeg invocation; on
failure the error is reported and `false` is returned, never a throw. -/
def convertToMp4 (webmPath mp4Path : String) (trimStart : ℚ) (ok : Bool) :
    List Event × Bool :=
  ([Event.log "Converting to MP4...",
    Event.encodeMp4 webmPath mp4Path trimStart ok]
    ++ (if ok then [Event.log ("MP4 saved: " ++ mp4Path)]
        else [Event.errLog "ffmpeg MP4 conversion failed"]),
   ok)

/-- `generateGif` (lines 348-375): the two-stage palette pipeline is
collapsed into one fallible encode event targeting `gifPath`; on success
the palette temp file is removed; on failure the error is reported and
`false` is returned, never a throw. -/
def generateGif (mp4Path gifPath : String) (ok : Bool) : List Event × Bool :=
  ([Event.log "Generating GIF..."]
    ++ (if ok then
          [Event.encodeGif mp4Path gifPath true, Event.unlinkFile "palette.png",
           Event.log ("GIF saved: " ++ gifPath)]
        else [Event.encodeGif mp4Path gifPath false,
              Event.errLog "ffmpeg GIF generation failed"]),
   ok)

/-- The `try` block of `recordVideo` (lines 408-514): setup pass,
recording pass, raw-capture lookup (filter the temp listing for `.webm`,
throw when empty), transcode, WebM fallback on transcode failure, GIF
generation when enabled and the transcode succeeded. -/
def tryBody (o : Options) (env : Env) (displayUrl : String) :
    List Event × Option String :=
  let s := setupPassEvents o env displayUrl
  match s.2 with
  | some m => (s.1, some m)
  | none =>
    let r := recordPassEvents o env displayUrl
    match r.2 with
    | some m => (s.1 ++ r.1, some m)
    | none =>
      match env.tempFiles.filter (fun f => jsEndsWith f ".webm") with
      | [] => (s.1 ++ r.1, some "No video file was recorded")
      | v :: _ =>
        let recordedVideo := env.tempDirName ++ "/" ++ v
        let conv := convertToMp4 recordedVideo (jsStr o.output) o.trim env.mp4Ok
        let fallbackEvs :=
          if conv.2 then [] else
            [Event.errLog "Failed to convert to MP4. Keeping WebM...",
             Event.copyFile recordedVideo (jsReplace (jsStr o.output) ".mp4" ".webm"),
             Event.log ("WebM saved: " ++ jsReplace (jsStr o.output) ".mp4" ".webm")]
        let gifEvs :=
          if !o.noGif && conv.2 then
            (generateGif (jsStr o.output) (jsReplace (jsStr o.output) ".mp4" ".gif")
              env.gifOk).1
          else []
        (s.1 ++ r.1 ++ conv.1 ++ fallbackEvs ++ gifEvs ++ [Event.log "Done!"], none)

/-- `recordVideo` (lines 377-525). Note the source order: the required-
argument checks exit before any filesystem effect; the output directory
and the temp directory are created next; `new URL(options.url)` (line 398)
and `chromium.launch` (line 406) run after the temp directory is created
but BEFORE the `try`, so a throw in either skips the `finally` cleanup;
the `finally` (lines 515-524) closes the browser and removes the temp
directory whether the `try` body returned or threw. -/
def recordVideo (o : Options) (env : Env) : List Event × RVResult :=
  if jsFalsy o.url then
    ([Event.errLog "Error: --url is required"], RVResult.exited 1)
  else if jsFalsy o.output then
    ([Event.errLog "Error: --output is required"], RVResult.exited 1)
  else
    let pre := (if env.outputDirExists then [] else [Event.mkdirOutput])
      ++ [Event.mkTempDir env.tempDirName]
    match env.urlParse with
    | none => (pre, RVResult.threw "Invalid URL")
    | some hp =>
      let displayUrl := hp.1 ++ hp.2
      if env.launchOk then
        let body := tryBody o env displayUrl
        (pre ++ [Event.launch true] ++ body.1
          ++ [Event.closeBrowser, Event.rmTempDir env.tempDirName],
         match body.2 with
         | some m => RVResult.threw m
         | none => RVResult.normal)
      else (pre ++ [Event.launch false], RVResult.threw "browser launch failed")

/-- The process-level outcome of `recordVideo(options)` plus the top-level
`.catch` (lines 569-572): a thrown error is reported and the process exits
1; a normal return exits 0; `process.exit(n)` exits n. -/
def runRecord (o : Options) (env : Env) : List Event × ℕ :=
  match recordVideo o env with
  | (t, RVResult.exited n) => (t, n)
  | (t, RVResult.threw m) => (t ++ [Event.errLog ("Error: " ++ m)], 1)
  | (t, RVResult.normal) => (t, 0)

/-- The main execution block (lines 528-572): an empty argument list or a
`--help` anywhere prints the usage text and exits 0 before `parseArgs` or
`recordVideo` run. -/
def runMain (pf : Option String → ℚ) (pijs : Option String → ℤ)
    (args : List String) (env : Env) : List Event × ℕ :=
  if args.isEmpty || args.contains "--help" then ([Event.log "help"], 0)
  else runRecord (parseArgs pf pijs args) env

/-- Whether an event writes (successfully produces) a file at path `p`:
a succeeding encode targeting `p`, or a file copy onto `p`. -/
def writesTo (e : Event) (p : String) : Bool :=
  match e with
  | Event.encodeMp4 _ dst _ ok => ok && dst == p
  | Event.copyFile _ dst => dst == p
  | Event.encodeGif _ dst ok => ok && dst == p
  | _ => false

/-- Concrete options shared by witness instantiations: a tiny but fully
populated configuration (duration 0 keeps the scroll trace empty). -/
def optsBase : Options :=
  { url := some "https://example.com/", output := some "out.mp4", duration := 0,
    speed := 300, wait := 3000, trim := 3, title := some "T", noGif := false,
    width := 900, height := 900 }

/-- Concrete environment shared by witness instantiations: every external
capability succeeds and the temp dir holds one raw capture. -/
def envBase : Env :=
  { urlParse := some ("example.com", "/"), launchOk := true, setupNavOk := true,
    recordNavOk := true, pageTitle := "Page", initialScrollY := 0,
    tempDirName := "tmp", tempFiles := ["a.webm"], outputDirExists := true,
    mp4Ok := true, gifOk := true }

/-- Concrete `parseFloat` oracle for the argument-parsing theorems. -/
def pfW : Option String → ℚ := fun _ => 0

/-- Concrete `parseInt` oracle for the argument-parsing theorems. -/
def piW : Option String → ℤ := fun _ => 0

/-- Options whose `--url` value is a string `new URL` rejects. -/
def oC6 : Options := { optsBase with url := some "not a url" }

/-- Environment in which `new URL(options.url)` throws (`urlParse = none`),
as it does for the options in `oC6`. -/
def envC6 : Env := { envBase with urlParse := none }

/-- Options with a configured settle wait of 1000 ms, below the fixed
2000 ms settle of the recording pass. -/
def oC9 : Options := { optsBase with wait := 1000 }

/-- Environment for the transcode-failure scenarios. -/
def envC3 : Env := { envBase with mp4Ok := false }

/-- Environment in which the transcode succeeds but GIF generation fails. -/
def envC4 : Env := { envBase with gifOk := false }

/-- Environment in which the temp dir listing holds no `.webm` file. -/
def envC5 : Env := { envBase with tempFiles := ["video.txt"] }

/-- Options whose output path does not contain the substring `.mp4`. -/
def oC10 : Options := { optsBase with output := some "out.avi" }

/- Helper lemmas about the scroll loop. -/

lemma scrollLoop_length (delta : ℤ) (ms : ℚ) :
    ∀ (n : ℕ) (cur : ℚ), (scrollLoop delta ms cur n).length = n := by
  intro n
  induction n with
  | zero => intro cur; rfl
  | succ n ih => intro cur; simp [scrollLoop, ih]

lemma scrollLoop_get (delta : ℤ) (ms : ℚ) :
    ∀ (n : ℕ) (cur : ℚ) (i : ℕ) (h : i < (scrollLoop delta ms cur n).length),
      (scrollLoop delta ms cur n).get ⟨i, h⟩ =
        { scrollTo := cur + ((i : ℚ) + 1) * (delta : ℚ), sleepMs := ms } := by
  intro n
  induction n with
  | zero => intro cur i h; simp [scrollLoop] at h
  | succ n ih =>
    intro cur i h
    cases i with
    | zero => simp [scrollLoop, List.get]
    | succ i =>
      have := ih (cur + (delta : ℚ)) i (by
        have hlen := scrollLoop_length delta ms
        rw [hlen] at h ⊢
        omega)
      simp only [scrollLoop, List.get_cons_succ] at this ⊢
      rw [this]
      simp only [ScrollStep.mk.injEq]
      constructor
      · push_cast
        ring
      · trivial

lemma scrollLoop_sleepMs (delta : ℤ) (ms : ℚ) :
    ∀ (n : ℕ) (cur : ℚ) (st : ScrollStep), st ∈ scrollLoop delta ms cur n →
      st.sleepMs = ms := by
  intro n
  induction n with
  | zero => intro cur st h; simp [scrollLoop] at h
  | succ n ih =>
    intro cur st h
    rw [scrollLoop] at h
    rcases List.mem_cons.mp h with h1 | h1
    · rw [h1]
    · exact ih _ st h1

/-- C1: for every valid configuration (nonnegative duration, any speed)
and every initial scroll offset, the scroll loop executes exactly
`round(duration * 60)` steps (the frame rate constant is 60); step `i`
(0-based) sets the absolute scroll position to the initial offset plus
`(i + 1) * max(1, ceil(speed / 60))` pixels, and each step sleeps
`1000 / 60` milliseconds. -/
theorem scrollForDuration_spec (d s y0 : ℚ) (h : 0 ≤ d) :
    SCROLL_FPS = 60 ∧
    ((scrollForDuration d s y0).length : ℤ) = jsRound (d * SCROLL_FPS) ∧
    ∀ (i : ℕ) (hi : i < (scrollForDuration d s y0).length),
      (scrollForDuration d s y0).get ⟨i, hi⟩ =
        { scrollTo := y0 + ((i : ℚ) + 1) * ((max 1 (jsCeil (s / SCROLL_FPS)) : ℤ) : ℚ),
          sleepMs := 1000 / SCROLL_FPS } := by
  have hnn : 0 ≤ jsRound (d * SCROLL_FPS) := by
    rw [jsRound, Int.le_floor]
    push_cast
    have h60 : (0 : ℚ) ≤ d * SCROLL_FPS := mul_nonneg h (by norm_num [SCROLL_FPS])
    linarith
  refine ⟨rfl, ?_, ?_⟩
  · simp only [scrollForDuration]
    rw [scrollLoop_length]
    exact Int.toNat_of_nonneg hnn
  · intro i hi
    simp only [scrollForDuration] at hi ⊢
    exact scrollLoop_get _ _ _ _ i hi

/-- Witness for `scrollForDuration_spec` at duration 1 s, speed 300 px/s,
initial offset 0: the hypothesis `0 ≤ 1` holds and the loop runs
`round(1 * 60)` steps. -/
theorem scrollForDuration_spec_witness :
    (0 : ℚ) ≤ 1 ∧ ((scrollForDuration 1 300 0).length : ℤ) = jsRound (1 * SCROLL_FPS) :=
  ⟨by norm_num, (scrollForDuration_spec 1 300 0 (by norm_num)).2.1⟩

/- Helper lemmas about `escapeHtml`. -/

lemma replaceAllChar_append (p : Char) (r : List Char) :
    ∀ a b : List Char,
      replaceAllChar (a ++ b) p r = replaceAllChar a p r ++ replaceAllChar b p r := by
  intro a
  induction a with
  | nil => intro b; rfl
  | cons c t ih => intro b; simp [replaceAllChar, ih]

lemma chain_singleton (c : Char) :
    replaceAllChar (replaceAllChar (replaceAllChar (replaceAllChar
      (replaceAllChar [c] '&' "&amp;".data) '<' "&lt;".data) '>' "&gt;".data)
      '\x22' "&quot;".data) '\x27' "&#039;".data = escapeChar c := by
  by_cases h1 : c = '&'
  · subst h1; decide
  · by_cases h2 : c = '<'
    · subst h2; decide
    · by_cases h3 : c = '>'
      · subst h3; decide
      · by_cases h4 : c = '\x22'
        · subst h4; decide
        · by_cases h5 : c = '\x27'
          · subst h5; decide
          · simp [replaceAllChar, escapeChar, h1, h2, h3, h4, h5]

lemma escChain_eq : ∀ l : List Char,
    replaceAllChar (replaceAllChar (replaceAllChar (replaceAllChar
      (replaceAllChar l '&' "&amp;".data) '<' "&lt;".data) '>' "&gt;".data)
      '\x22' "&quot;".data) '\x27' "&#039;".data = escListSpec l := by
  intro l
  induction l with
  | nil => rfl
  | cons c t ih =>
    have hct : c :: t = [c] ++ t := rfl
    rw [hct, replaceAllChar_append, replaceAllChar_append, replaceAllChar_append,
        replaceAllChar_append, replaceAllChar_append, chain_singleton, ih]
    rfl

lemma escapeHtml_data (s : String) : (escapeHtml s).data = escListSpec s.data := by
  unfold escapeHtml
  exact escChain_eq s.data

lemma escapeChar_no_raw (c : Char) : ∀ d ∈ escapeChar c, rawSpecial d = false := by
  unfold escapeChar
  split_ifs with h1 h2 h3 h4 h5
  · decide
  · decide
  · decide
  · decide
  · decide
  · intro d hd
    simp only [List.mem_singleton] at hd
    subst hd
    simp [rawSpecial, h2, h3, h4, h5]

lemma escListSpec_no_raw : ∀ l : List Char, ∀ c ∈ escListSpec l, rawSpecial c = false := by
  intro l
  induction l with
  | nil => intro c hc; simp [escListSpec] at hc
  | cons a t ih =>
    intro c hc
    rw [escListSpec] at hc
    rcases List.mem_append.mp hc with h | h
    · exact escapeChar_no_raw a c h
    · exact ih c h

lemma ampOk_cons_of_ne (c : Char) (t : List Char) (h : c ≠ '&') :
    ampOk (c :: t) = ampOk t := by
  rw [ampOk]
  simp [h]

lemma ampOk_escapeChar (c : Char) (t : List Char) :
    ampOk (escapeChar c ++ t) = ampOk t := by
  by_cases h1 : c = '&'
  · subst h1
    rw [show escapeChar '&' ++ t = '&' :: 'a' :: 'm' :: 'p' :: ';' :: t from rfl]
    rw [ampOk]
    simp [List.isPrefixOf]
  · by_cases h2 : c = '<'
    · subst h2
      rw [show escapeChar '<' ++ t = '&' :: 'l' :: 't' :: ';' :: t from rfl]
      rw [ampOk]
      simp [List.isPrefixOf]
    · by_cases h3 : c = '>'
      · subst h3
        rw [show escapeChar '>' ++ t = '&' :: 'g' :: 't' :: ';' :: t from rfl]
        rw [ampOk]
        simp [List.isPrefixOf]
      · by_cases h4 : c = '\x22'
        · subst h4
          rw [show escapeChar '\x22' ++ t = '&' :: 'q' :: 'u' :: 'o' :: 't' :: ';' :: t from rfl]
          rw [ampOk]
          simp [List.isPrefixOf]
        · by_cases h5 : c = '\x27'
          · subst h5
            rw [show escapeChar '\x27' ++ t = '&' :: '#' :: '0' :: '3' :: '9' :: ';' :: t from rfl]
            rw [ampOk]
            simp [List.isPrefixOf]
          · rw [show escapeChar c ++ t = c :: t by simp [escapeChar, h1, h2, h3, h4, h5]]
            exact ampOk_cons_of_ne c t h1

lemma escListSpec_ampOk : ∀ l : List Char, ampOk (escListSpec l) = true := by
  intro l
  induction l with
  | nil => simp [escListSpec, ampOk]
  | cons c t ih =>
    rw [escListSpec, ampOk_escapeChar]
    exact ih

lemma escapeHtml_no_raw (s : String) : ∀ c ∈ (escapeHtml s).data, rawSpecial c = false := by
  rw [escapeHtml_data]
  exact escListSpec_no_raw s.data

lemma escapeHtml_ampOk (s : String) : ampOk (escapeHtml s).data = true := by
  rw [escapeHtml_data]
  exact escListSpec_ampOk s.data

/-- C7: the overlay generator is deterministic and free of input/output.
In this embedding `getBrowserChromeOverlay` is a pure function (its source
body only assembles template literals; it is given no effect trace because
it performs no network or filesystem call), so two calls with equal
(title, display URL) inputs return byte-identical style rules and markup
fragments. -/
theorem getBrowserChromeOverlay_deterministic (t1 u1 t2 u2 : String)
    (ht : t1 = t2) (hu : u1 = u2) :
    (getBrowserChromeOverlay t1 u1).css = (getBrowserChromeOverlay t2 u2).css ∧
    (getBrowserChromeOverlay t1 u1).html = (getBrowserChromeOverlay t2 u2).html := by
  subst ht
  subst hu
  exact ⟨rfl, rfl⟩

/-- Witness for `getBrowserChromeOverlay_deterministic` at a concrete
(title, display URL) pair. -/
theorem getBrowserChromeOverlay_deterministic_witness :
    "My Page" = "My Page" ∧
    ((getBrowserChromeOverlay "My Page" "example.com/").css =
        (getBrowserChromeOverlay "My Page" "example.com/").css ∧
      (getBrowserChromeOverlay "My Page" "example.com/").html =
        (getBrowserChromeOverlay "My Page" "example.com/").html) :=
  ⟨rfl, getBrowserChromeOverlay_deterministic "My Page" "example.com/" "My Page"
    "example.com/" rfl rfl⟩

/-- C8: the two inputs enter the generated markup fragment exclusively
through `escapeHtml` (the fragment is the input-independent template
around the two escaped values), and `escapeHtml` output never contains a
raw `<`, `>`, double quote or single quote, while every ampersand in it is
the head of an HTML entity — hence every markup-significant character of
either input appears in the markup only in escaped form. -/
theorem getBrowserChromeOverlay_escapes (title displayUrl : String) :
    (getBrowserChromeOverlay title displayUrl).html =
      htmlPre ++ escapeHtml title ++ htmlMid ++ escapeHtml displayUrl ++ htmlPost ∧
    (∀ c ∈ (escapeHtml title).data, rawSpecial c = false) ∧
    (∀ c ∈ (escapeHtml displayUrl).data, rawSpecial c = false) ∧
    ampOk (escapeHtml title).data = true ∧
    ampOk (escapeHtml displayUrl).data = true :=
  ⟨rfl, escapeHtml_no_raw title, escapeHtml_no_raw displayUrl,
    escapeHtml_ampOk title, escapeHtml_ampOk displayUrl⟩

/-- Witness for `getBrowserChromeOverlay_escapes` at inputs holding every
markup-significant character. -/
theorem getBrowserChromeOverlay_escapes_witness :
    ∀ c ∈ (escapeHtml "a&b<c>d\x22e\x27f").data, rawSpecial c = false :=
  (getBrowserChromeOverlay_escapes "a&b<c>d\x22e\x27f" "example.com/").2.1

/- Helper lemmas about traces and path rewriting. -/

lemma mem_stepsToEvents {e : Event} :
    ∀ {l : List ScrollStep}, e ∈ stepsToEvents l →
      (∃ st ∈ l, e = Event.scrollTo st.scrollTo) ∨
      (∃ st ∈ l, e = Event.sleep st.sleepMs) := by
  intro l
  induction l with
  | nil => intro h; simp [stepsToEvents] at h
  | cons st r ih =>
    intro h
    rw [stepsToEvents] at h
    rcases List.mem_cons.mp h with h1 | h1
    · exact Or.inl ⟨st, List.mem_cons_self st r, h1⟩
    · rcases List.mem_cons.mp h1 with h2 | h2
      · exact Or.inr ⟨st, List.mem_cons_self st r, h2⟩
      · rcases ih h2 with ⟨st', hst', he⟩ | ⟨st', hst', he⟩
        · exact Or.inl ⟨st', List.mem_cons_of_mem st hst', he⟩
        · exact Or.inr ⟨st', List.mem_cons_of_mem st hst', he⟩

lemma replaceFirst_of_not_hasSub (pat rep : List Char) :
    ∀ s : List Char, hasSub s pat = false → replaceFirst s pat rep = s := by
  intro s
  induction s with
  | nil => intro h; rfl
  | cons c rest ih =>
    intro h
    rw [hasSub, Bool.or_eq_false_iff] at h
    rw [replaceFirst, if_neg (by simp [h.1]), ih h.2]

lemma jsReplace_noop (s pat rep : String) (h : hasSub s.data pat.data = false) :
    jsReplace s pat rep = s := by
  obtain ⟨l⟩ := s
  rw [jsReplace, replaceFirst_of_not_hasSub _ _ _ h]

lemma recordVideo_validation (o : Options) (env : Env)
    (h : jsFalsy o.url = true ∨ (jsFalsy o.url = false ∧ jsFalsy o.output = true)) :
    recordVideo o env = ([Event.errLog "Error: --url is required"], RVResult.exited 1) ∨
    recordVideo o env = ([Event.errLog "Error: --output is required"], RVResult.exited 1) := by
  rcases h with h | ⟨h1, h2⟩
  · left
    rw [recordVideo, if_pos h]
  · right
    rw [recordVideo, if_neg (by simp [h1]), if_pos h2]

/-- C2 (amended): for every invocation with at least one argument and no
`--help` anywhere, if the parsed `--url` or `--output` is absent then the
process exits 1 and the whole trace is the single validation error
message — in particular no browser launch, no output-directory creation
and no temp-directory creation happened. (The original claim, quantified
over EVERY invocation, is refuted by `missing_required_args_cex`: an
empty argument list or a `--help` prints usage and exits 0.) -/
theorem missing_required_args (pf : Option String → ℚ) (pijs : Option String → ℤ)
    (args : List String) (env : Env)
    (hne : args ≠ []) (hh : args.contains "--help" = false)
    (habs : (parseArgs pf pijs args).url = none ∨ (parseArgs pf pijs args).output = none) :
    (runMain pf pijs args env).2 = 1 ∧
    ∀ e ∈ (runMain pf pijs args env).1,
      e = Event.errLog "Error: --url is required" ∨
      e = Event.errLog "Error: --output is required" := by
  have hne' : args.isEmpty = false := by
    cases args with
    | nil => exact absurd rfl hne
    | cons a t => rfl
  rw [runMain, hne', hh, if_neg (by simp)]
  have hd : jsFalsy (parseArgs pf pijs args).url = true ∨
      (jsFalsy (parseArgs pf pijs args).url = false ∧
        jsFalsy (parseArgs pf pijs args).output = true) := by
    by_cases hfu : jsFalsy (parseArgs pf pijs args).url = true
    · exact Or.inl hfu
    · right
      refine ⟨by simpa using hfu, ?_⟩
      rcases habs with h | h
      · exact absurd (by rw [h]; rfl) hfu
      · rw [h]
        rfl
  rcases recordVideo_validation (parseArgs pf pijs args) env hd with hK | hK
  · rw [runRecord, hK]
    refine ⟨rfl, ?_⟩
    intro e he
    simp only [List.mem_singleton] at he
    exact Or.inl he
  · rw [runRecord, hK]
    refine ⟨rfl, ?_⟩
    intro e he
    simp only [List.mem_singleton] at he
    exact Or.inr he

/-- C2 counterexample: the empty invocation has no `--url` option, yet the
tool prints the usage text and exits with status ZERO (main block lines
530-566), refuting the claim that every `--url`-less invocation exits
nonzero. -/
theorem missing_required_args_cex :
    ¬ ("--url" ∈ ([] : List String)) ∧ (runMain pfW piW [] envBase).2 = 0 :=
  ⟨by simp, rfl⟩

/-- Witness for `missing_required_args`: the invocation
`--output x.mp4` (nonempty, no `--help`, no `--url`) exits 1. -/
theorem missing_required_args_witness :
    (["--output", "x.mp4"] : List String) ≠ [] ∧
    (parseArgs pfW piW ["--output", "x.mp4"]).url = none ∧
    (runMain pfW piW ["--output", "x.mp4"] envBase).2 = 1 := by
  refine ⟨by simp, by decide, ?_⟩
  exact (missing_required_args pfW piW ["--output", "x.mp4"] envBase (by simp)
    (by decide) (Or.inl (by decide))).1

/-- C6 (amended): for every run that creates the temp directory AND
proceeds past URL parsing and browser launch (the two calls the source
places after `mkdtempSync` but outside the `try`/`finally`), the temp
directory removal is the final step of the run, whether the `try` body
returned normally or threw. (The original unconditional claim is refuted
by `tempDir_cleanup_cex`: a throw in `new URL(options.url)` happens after
the temp directory is created and skips the cleanup.) -/
theorem tempDir_cleanup (o : Options) (env : Env) (hp : String × String)
    (hu : jsFalsy o.url = false) (ho : jsFalsy o.output = false)
    (hurl : env.urlParse = some hp) (hl : env.launchOk = true) :
    Event.mkTempDir env.tempDirName ∈ (recordVideo o env).1 ∧
    (recordVideo o env).1.getLast? = some (Event.rmTempDir env.tempDirName) := by
  rw [recordVideo, if_neg (by simp [hu]), if_neg (by simp [ho])]
  simp only [hurl, hl, if_true]
  constructor
  · simp
  · rw [show ((if env.outputDirExists then [] else [Event.mkdirOutput])
        ++ [Event.mkTempDir env.tempDirName]) ++ [Event.launch true]
        ++ (tryBody o env (hp.1 ++ hp.2)).1
        ++ [Event.closeBrowser, Event.rmTempDir env.tempDirName] =
      (((if env.outputDirExists then [] else [Event.mkdirOutput])
        ++ [Event.mkTempDir env.tempDirName]) ++ [Event.launch true]
        ++ (tryBody o env (hp.1 ++ hp.2)).1
        ++ [Event.closeBrowser]) ++ [Event.rmTempDir env.tempDirName] by
      simp [List.append_assoc]]
    exact List.getLast?_concat _

/-- C6 counterexample: with `--url "not a url"` (a string `new URL`
rejects) the run creates the temp directory (the whole trace is that one
event) and then propagates the URL-parse error without ever removing it,
because lines 398-406 of the source run after `mkdtempSync` but outside
the `try` whose `finally` does the cleanup. -/
theorem tempDir_cleanup_cex :
    (recordVideo oC6 envC6).1 = [Event.mkTempDir "tmp"] ∧
    (recordVideo oC6 envC6).2 = RVResult.threw "Invalid URL" :=
  ⟨rfl, rfl⟩

/-- Witness for `tempDir_cleanup` at the base configuration: the cleanup
is the last event of the trace. -/
theorem tempDir_cleanup_witness :
    jsFalsy optsBase.url = false ∧
    (recordVideo optsBase envBase).1.getLast? =
      some (Event.rmTempDir envBase.tempDirName) := by
  refine ⟨by decide, ?_⟩
  exact (tempDir_cleanup optsBase envBase ("example.com", "/") (by decide) (by decide)
    rfl rfl).2

lemma scrollForDuration_sleepMs (d s y0 : ℚ) :
    ∀ st ∈ scrollForDuration d s y0, st.sleepMs = 1000 / SCROLL_FPS := by
  intro st hst
  simp only [scrollForDuration] at hst
  exact scrollLoop_sleepMs _ _ _ _ st hst

/-- C9 (amended): the configured `--wait` settle pause is performed only
in the non-recording setup pass (when positive), and the recording pass
instead waits a FIXED 2000 ms settle period before the scroll begins —
independent of the configured wait, which never occurs as a sleep of the
recording pass (its only sleeps are the 2000 ms settle and the fractional
1000/60 ms frame sleeps). The fixed settle is shorter than the setup
settle only when the configured wait exceeds 2000 ms (as the 3000 ms
default does); the original claim's unconditional "shorter" is refuted by
`settle_waits_cex`. -/
theorem settle_waits (o : Options) (env : Env) (du : String)
    (hsetup : env.setupNavOk = true) (hrec : env.recordNavOk = true) :
    (0 < o.wait → Event.sleep (o.wait : ℚ) ∈ (setupPassEvents o env du).1) ∧
    (recordPassEvents o env du).1 =
      [Event.newContext true, Event.goto (jsStr o.url) true true,
       Event.inject (pageTitleOf o env) du, Event.sleep 2000]
        ++ stepsToEvents (scrollForDuration o.duration o.speed env.initialScrollY)
        ++ [Event.closeContext true] ∧
    ((o.wait : ℚ) ≠ 2000 →
      Event.sleep (o.wait : ℚ) ∉ (recordPassEvents o env du).1) := by
  refine ⟨?_, ?_, ?_⟩
  · intro hw
    simp [setupPassEvents, hsetup, hw]
  · simp [recordPassEvents, hrec]
  · intro hne hmem
    have h2 : (recordPassEvents o env du).1 =
        [Event.newContext true, Event.goto (jsStr o.url) true true,
         Event.inject (pageTitleOf o env) du, Event.sleep 2000]
          ++ stepsToEvents (scrollForDuration o.duration o.speed env.initialScrollY)
          ++ [Event.closeContext true] := by
      simp [recordPassEvents, hrec]
    rw [h2] at hmem
    rcases List.mem_append.mp hmem with hL | hR
    · rcases List.mem_append.mp hL with hA | hB
      · simp only [List.mem_cons, List.mem_singleton, List.not_mem_nil] at hA
        rcases hA with h | h | h | h | h
        · simp at h
        · simp at h
        · simp at h
        · injection h with h'
          exact hne h'
        · exact h.elim
      · rcases mem_stepsToEvents hB with ⟨st, hst, he⟩ | ⟨st, hst, he⟩
        · simp at he
        · injection he with he'
          rw [scrollForDuration_sleepMs _ _ _ st hst] at he'
          have he2 : ((o.wait : ℚ)) = 50 / 3 := by
            rw [he']
            norm_num [SCROLL_FPS]
          have h3 : ((3 * o.wait : ℤ) : ℚ) = 50 := by
            push_cast
            rw [he2]
            ring
          have h3' : (3 * o.wait : ℤ) = 50 := by exact_mod_cast h3
          omega
    · simp at hR

/-- C9 counterexample: with `--wait 1000` the recording pass still sleeps
the fixed 2000 ms before scrolling (line 476), which is NOT shorter than
the setup pass's configured 1000 ms settle wait — refuting the claim that
the recording settle is shorter than the setup settle for every
configuration. -/
theorem settle_waits_cex :
    oC9.wait = 1000 ∧
    Event.sleep 2000 ∈ (recordPassEvents oC9 envBase "example.com/").1 ∧
    Event.sleep ((oC9.wait : ℤ) : ℚ) ∈ (setupPassEvents oC9 envBase "example.com/").1 ∧
    ¬ ((2000 : ℤ) < oC9.wait) := by
  refine ⟨rfl, ?_, ?_, by decide⟩
  · decide
  · decide

/-- Witness for `settle_waits` at the default 3000 ms wait: the configured
wait occurs in the setup pass and never in the recording pass. -/
theorem settle_waits_witness :
    envBase.setupNavOk = true ∧
    Event.sleep ((optsBase.wait : ℤ) : ℚ) ∈
      (setupPassEvents optsBase envBase "example.com/").1 ∧
    Event.sleep ((optsBase.wait : ℤ) : ℚ) ∉
      (recordPassEvents optsBase envBase "example.com/").1 := by
  refine ⟨rfl, ?_, ?_⟩
  · exact (settle_waits optsBase envBase "example.com/" rfl rfl).1 (by decide)
  · exact (settle_waits optsBase envBase "example.com/" rfl rfl).2.2 (by decide)

lemma tryBody_success (o : Options) (env : Env) (du : String) (v : String)
    (vs : List String)
    (hs : env.setupNavOk = true) (hr : env.recordNavOk = true)
    (hv : env.tempFiles.filter (fun f => jsEndsWith f ".webm") = v :: vs) :
    tryBody o env du =
      ((setupPassEvents o env du).1 ++ (recordPassEvents o env du).1
        ++ (convertToMp4 (env.tempDirName ++ "/" ++ v) (jsStr o.output) o.trim env.mp4Ok).1
        ++ (if env.mp4Ok then [] else
             [Event.errLog "Failed to convert to MP4. Keeping WebM...",
              Event.copyFile (env.tempDirName ++ "/" ++ v)
                (jsReplace (jsStr o.output) ".mp4" ".webm"),
              Event.log ("WebM saved: " ++ jsReplace (jsStr o.output) ".mp4" ".webm")])
        ++ (if !o.noGif && env.mp4Ok then
              (generateGif (jsStr o.output) (jsReplace (jsStr o.output) ".mp4" ".gif")
                env.gifOk).1
            else [])
        ++ [Event.log "Done!"], none) := by
  have hs2 : (setupPassEvents o env du).2 = none := by simp [setupPassEvents, hs]
  have hr2 : (recordPassEvents o env du).2 = none := by simp [recordPassEvents, hr]
  simp only [tryBody, hs2, hr2, hv, convertToMp4]

lemma tryBody_no_capture (o : Options) (env : Env) (du : String)
    (hs : env.setupNavOk = true) (hr : env.recordNavOk = true)
    (hv : env.tempFiles.filter (fun f => jsEndsWith f ".webm") = []) :
    tryBody o env du =
      ((setupPassEvents o env du).1 ++ (recordPassEvents o env du).1,
       some "No video file was recorded") := by
  have hs2 : (setupPassEvents o env du).2 = none := by simp [setupPassEvents, hs]
  have hr2 : (recordPassEvents o env du).2 = none := by simp [recordPassEvents, hr]
  simp only [tryBody, hs2, hr2, hv]

lemma recordVideo_launched (o : Options) (env : Env) (hp : String × String)
    (hu : jsFalsy o.url = false) (ho : jsFalsy o.output = false)
    (hurl : env.urlParse = some hp) (hl : env.launchOk = true) :
    recordVideo o env =
      ((if env.outputDirExists then [] else [Event.mkdirOutput])
        ++ [Event.mkTempDir env.tempDirName] ++ [Event.launch true]
        ++ (tryBody o env (hp.1 ++ hp.2)).1
        ++ [Event.closeBrowser, Event.rmTempDir env.tempDirName],
       match (tryBody o env (hp.1 ++ hp.2)).2 with
       | some m => RVResult.threw m
       | none => RVResult.normal) := by
  rw [recordVideo, if_neg (by simp [hu]), if_neg (by simp [ho])]
  simp only [hurl, hl, if_true, List.append_assoc]

lemma encodeGif_not_mem_steps (s d : String) (k : Bool) (l : List ScrollStep) :
    Event.encodeGif s d k ∉ stepsToEvents l := by
  intro hmem
  rcases mem_stepsToEvents hmem with ⟨st, _, he⟩ | ⟨st, _, he⟩ <;> simp at he

lemma filter_writesTo_steps (p : String) (l : List ScrollStep) :
    (stepsToEvents l).filter (fun e => writesTo e p) = [] := by
  induction l with
  | nil => rfl
  | cons st r ih =>
    rw [stepsToEvents, List.filter_cons, List.filter_cons]
    simp only [writesTo, Bool.false_eq_true, if_false]
    exact ih

/-- C3: in every run that reaches the transcode step and whose transcode
fails (`mp4Ok = false`), the run still ends normally (process exit 0), the
transcode error is reported, the raw capture is copied to the requested
output path with `.mp4` replaced by `.webm`, and no GIF generation is
ever attempted. -/
theorem transcode_failure_fallback (o : Options) (hn pn pt tmp : String) (y0 : ℚ)
    (files : List String) (de g : Bool) (v : String) (vs : List String) (env : Env)
    (henv : env = ⟨some (hn, pn), true, true, true, pt, y0, tmp, files, de, false, g⟩)
    (hu : jsFalsy o.url = false) (ho : jsFalsy o.output = false)
    (hv : files.filter (fun f => jsEndsWith f ".webm") = v :: vs) :
    (recordVideo o env).2 = RVResult.normal ∧
    (runRecord o env).2 = 0 ∧
    Event.errLog "ffmpeg MP4 conversion failed" ∈ (recordVideo o env).1 ∧
    Event.copyFile (tmp ++ "/" ++ v) (jsReplace (jsStr o.output) ".mp4" ".webm")
      ∈ (recordVideo o env).1 ∧
    ∀ src dst k, Event.encodeGif src dst k ∉ (recordVideo o env).1 := by
  subst henv
  have hR := recordVideo_launched o
    ⟨some (hn, pn), true, true, true, pt, y0, tmp, files, de, false, g⟩ (hn, pn) hu ho rfl rfl
  have hT := tryBody_success o
    ⟨some (hn, pn), true, true, true, pt, y0, tmp, files, de, false, g⟩
    ((hn, pn).1 ++ (hn, pn).2) v vs rfl rfl hv
  refine ⟨?_, ?_, ?_, ?_, ?_⟩
  · rw [hR, hT]
  · rw [runRecord, hR, hT]
  · rw [hR, hT]
    simp [convertToMp4]
  · rw [hR, hT]
    simp
  · intro src dst k hmem
    rw [hR, hT] at hmem
    cases de <;> by_cases hw : 0 < o.wait <;>
      simp [setupPassEvents, recordPassEvents, convertToMp4, hw,
        encodeGif_not_mem_steps] at hmem

/-- Witness for `transcode_failure_fallback`: base options against the
environment whose ffmpeg transcode fails. -/
theorem transcode_failure_fallback_witness :
    envC3.tempFiles.filter (fun f => jsEndsWith f ".webm") = ["a.webm"] ∧
    (runRecord optsBase envC3).2 = 0 ∧
    Event.copyFile ("tmp" ++ "/" ++ "a.webm")
      (jsReplace (jsStr optsBase.output) ".mp4" ".webm") ∈ (recordVideo optsBase envC3).1 := by
  have h := transcode_failure_fallback optsBase "example.com" "/" "Page" "tmp" 0
    ["a.webm"] true true "a.webm" [] envC3 rfl (by decide) (by decide) (by decide)
  exact ⟨by decide, h.2.1, h.2.2.2.1⟩

lemma copyFile_not_mem_steps (s d : String) (l : List ScrollStep) :
    Event.copyFile s d ∉ stepsToEvents l := by
  intro hmem
  rcases mem_stepsToEvents hmem with ⟨st, _, he⟩ | ⟨st, _, he⟩ <;> simp at he

lemma writesTo_eq_false_of_mem_steps (p : String) (l : List ScrollStep) :
    ∀ e ∈ stepsToEvents l, writesTo e p = false := by
  intro e he
  rcases mem_stepsToEvents he with ⟨st, _, he'⟩ | ⟨st, _, he'⟩ <;> subst he' <;> rfl

/-- C4: in every run whose transcode succeeds but whose GIF generation
fails (`mp4Ok = true`, `gifOk = false`, GIF not disabled), the process
still exits 0, the GIF failure is reported, nothing is ever copied over
any file, and the only event that writes to the requested output path is
the successful transcode itself — the produced video is left intact. -/
theorem gif_failure_nonfatal (o : Options) (hn pn pt tmp : String) (y0 : ℚ)
    (files : List String) (de : Bool) (v : String) (vs : List String) (env : Env)
    (henv : env = ⟨some (hn, pn), true, true, true, pt, y0, tmp, files, de, true, false⟩)
    (hu : jsFalsy o.url = false) (ho : jsFalsy o.output = false) (hng : o.noGif = false)
    (hv : files.filter (fun f => jsEndsWith f ".webm") = v :: vs) :
    (runRecord o env).2 = 0 ∧
    Event.errLog "ffmpeg GIF generation failed" ∈ (recordVideo o env).1 ∧
    (∀ s d, Event.copyFile s d ∉ (recordVideo o env).1) ∧
    (recordVideo o env).1.filter (fun e => writesTo e (jsStr o.output)) =
      [Event.encodeMp4 (tmp ++ "/" ++ v) (jsStr o.output) o.trim true] := by
  subst henv
  have hR := recordVideo_launched o
    ⟨some (hn, pn), true, true, true, pt, y0, tmp, files, de, true, false⟩ (hn, pn) hu ho rfl rfl
  have hT := tryBody_success o
    ⟨some (hn, pn), true, true, true, pt, y0, tmp, files, de, true, false⟩
    ((hn, pn).1 ++ (hn, pn).2) v vs rfl rfl hv
  refine ⟨?_, ?_, ?_, ?_⟩
  · rw [runRecord, hR, hT]
  · rw [hR, hT]
    simp [generateGif, hng]
  · intro s d hmem
    rw [hR, hT] at hmem
    cases de <;> by_cases hw : 0 < o.wait <;>
      simp [setupPassEvents, recordPassEvents, convertToMp4, generateGif, hng, hw,
        copyFile_not_mem_steps] at hmem
  · rw [hR, hT]
    cases de <;> by_cases hw : 0 < o.wait <;>
      simp [setupPassEvents, recordPassEvents, convertToMp4, generateGif, hng, hw,
        List.filter_append, filter_writesTo_steps, writesTo] <;>
      exact writesTo_eq_false_of_mem_steps (jsStr o.output) _

/-- Witness for `gif_failure_nonfatal`: base options against the
environment whose GIF generation fails. -/
theorem gif_failure_nonfatal_witness :
    envC4.tempFiles.filter (fun f => jsEndsWith f ".webm") = ["a.webm"] ∧
    (runRecord optsBase envC4).2 = 0 ∧
    Event.errLog "ffmpeg GIF generation failed" ∈ (recordVideo optsBase envC4).1 := by
  have h := gif_failure_nonfatal optsBase "example.com" "/" "Page" "tmp" 0 ["a.webm"]
    true "a.webm" [] envC4 rfl (by decide) (by decide) (by decide) (by decide)
  exact ⟨by decide, h.1, h.2.1⟩

/-- C5: in every run that reaches the raw-capture lookup and finds no
`.webm` file in the temp directory listing, the error
`No video file was recorded` is thrown and the process exits 1. -/
theorem no_capture_fatal (o : Options) (hn pn pt tmp : String) (y0 : ℚ)
    (files : List String) (de m4 g : Bool) (env : Env)
    (henv : env = ⟨some (hn, pn), true, true, true, pt, y0, tmp, files, de, m4, g⟩)
    (hu : jsFalsy o.url = false) (ho : jsFalsy o.output = false)
    (hv : files.filter (fun f => jsEndsWith f ".webm") = []) :
    (recordVideo o env).2 = RVResult.threw "No video file was recorded" ∧
    (runRecord o env).2 = 1 := by
  subst henv
  have hR := recordVideo_launched o
    ⟨some (hn, pn), true, true, true, pt, y0, tmp, files, de, m4, g⟩ (hn, pn) hu ho rfl rfl
  have hT := tryBody_no_capture o
    ⟨some (hn, pn), true, true, true, pt, y0, tmp, files, de, m4, g⟩
    ((hn, pn).1 ++ (hn, pn).2) rfl rfl hv
  constructor
  · rw [hR, hT]
  · rw [runRecord, hR, hT]

/-- Witness for `no_capture_fatal`: the temp directory listing holds only
`video.txt`, so the `.webm` filter is empty and the run exits 1. -/
theorem no_capture_fatal_witness :
    envC5.tempFiles.filter (fun f => jsEndsWith f ".webm") = [] ∧
    (runRecord optsBase envC5).2 = 1 := by
  have h := no_capture_fatal optsBase "example.com" "/" "Page" "tmp" 0 ["video.txt"]
    true true true envC5 rfl (by decide) (by decide) (by decide)
  exact ⟨by decide, h.2⟩

/-- C10: when the requested output path does not contain `.mp4`, the
suffix swap `output.replace('.mp4', ...)` is a no-op, so the WebM fallback
of a failed transcode is copied onto the requested output path itself, and
the GIF of a successful run is encoded onto the requested output path
itself — the same path the transcode wrote — overwriting it. -/
theorem no_mp4_suffix_collapse (o : Options) (hn pn pt tmp : String) (y0 : ℚ)
    (files : List String) (de m4 g : Bool) (v : String) (vs : List String) (env : Env)
    (henv : env = ⟨some (hn, pn), true, true, true, pt, y0, tmp, files, de, m4, g⟩)
    (hu : jsFalsy o.url = false) (ho : jsFalsy o.output = false)
    (hv : files.filter (fun f => jsEndsWith f ".webm") = v :: vs)
    (hno : hasSub (jsStr o.output).data ".mp4".data = false) :
    (m4 = false →
      Event.copyFile (tmp ++ "/" ++ v) (jsStr o.output) ∈ (recordVideo o env).1) ∧
    (m4 = true → o.noGif = false →
      Event.encodeMp4 (tmp ++ "/" ++ v) (jsStr o.output) o.trim true ∈ (recordVideo o env).1 ∧
      Event.encodeGif (jsStr o.output) (jsStr o.output) g ∈ (recordVideo o env).1) := by
  subst henv
  constructor
  · intro hm4
    subst hm4
    have hR := recordVideo_launched o
      ⟨some (hn, pn), true, true, true, pt, y0, tmp, files, de, false, g⟩ (hn, pn) hu ho rfl rfl
    have hT := tryBody_success o
      ⟨some (hn, pn), true, true, true, pt, y0, tmp, files, de, false, g⟩
      ((hn, pn).1 ++ (hn, pn).2) v vs rfl rfl hv
    rw [hR, hT, jsReplace_noop (jsStr o.output) ".mp4" ".webm" hno]
    simp
  · intro hm4 hng
    subst hm4
    have hR := recordVideo_launched o
      ⟨some (hn, pn), true, true, true, pt, y0, tmp, files, de, true, g⟩ (hn, pn) hu ho rfl rfl
    have hT := tryBody_success o
      ⟨some (hn, pn), true, true, true, pt, y0, tmp, files, de, true, g⟩
      ((hn, pn).1 ++ (hn, pn).2) v vs rfl rfl hv
    rw [hR, hT, jsReplace_noop (jsStr o.output) ".mp4" ".gif" hno]
    constructor
    · simp [convertToMp4]
    · cases g <;> simp [generateGif, hng]

/-- Witness for `no_mp4_suffix_collapse`: output path `out.avi` against
the failing-transcode environment — the WebM fallback is copied onto
`out.avi` itself. -/
theorem no_mp4_suffix_collapse_witness :
    hasSub (jsStr oC10.output).data ".mp4".data = false ∧
    Event.copyFile ("tmp" ++ "/" ++ "a.webm") (jsStr oC10.output)
      ∈ (recordVideo oC10 envC3).1 := by
  have h := no_mp4_suffix_collapse oC10 "example.com" "/" "Page" "tmp" 0 ["a.webm"]
    true false true "a.webm" [] envC3 rfl (by decide) (by decide) (by decide) (by decide)
  exact ⟨by decide, h.1 rfl⟩

end RecordCjs
